import Mathlib

/-!
Verification of the pyNote client (src/static/app.js) against its
natural-language specification.

The client is dynamically typed JavaScript; JSON values flowing through
`fetch(...).json()` are embedded as the inductive `JVal`, and property
access `obj.field` as `JVal.getField`, so that a response whose keys differ
from what the code reads behaves exactly as in JavaScript (the access
yields `undefined`, modelled by `none`).  Machine numbers from the backend
are embedded as rationals; `Math.round` as `jsRound` (floor of x + 1/2,
JavaScript's half-up rounding).  The backend server itself is not part of
the sources; where a claim depends on the records it produces, those are
modelled from the specification and marked as such.
-/

namespace PyNote

/-- A JSON value as delivered to the client by `response.json()`. -/
inductive JVal where
  | jstr : String → JVal
  | jnum : ℚ → JVal
  | jbool : Bool → JVal
  | jarr : List JVal → JVal
  | jobj : List (String × JVal) → JVal
  | jnull : JVal

/-- Property access `v.k` on a parsed JSON value: a lookup that yields
`none` (JavaScript `undefined`) when the key is absent or the value is not
an object. -/
def JVal.getField : JVal → String → Option JVal
  | JVal.jobj fields, k => fields.lookup k
  | _, _ => none

/-- JavaScript truthiness of a property-access result: `undefined`, `null`,
`false`, `0` and `""` are falsy, everything else (including `[]` and `{}`,
written here as the array and object constructors) is truthy. -/
def truthy : Option JVal → Bool
  | none => false
  | some JVal.jnull => false
  | some (JVal.jbool b) => b
  | some (JVal.jstr s) => decide (s ≠ "")
  | some (JVal.jnum q) => decide (q ≠ 0)
  | some (JVal.jarr _) => true
  | some (JVal.jobj _) => true

/-- `textContent` string coercion of a property-access result, for the
value kinds the client actually renders. -/
def textOf : Option JVal → String
  | some (JVal.jstr s) => s
  | some JVal.jnull => "null"
  | some (JVal.jbool b) => if b then "true" else "false"
  | some (JVal.jnum _) => ""
  | some (JVal.jarr _) => ""
  | some (JVal.jobj _) => ""
  | none => "undefined"

/-- Numeric reading of a property-access result; `none` stands for the
JavaScript NaN that arithmetic on a non-number produces. -/
def numOf : Option JVal → Option ℚ
  | some (JVal.jnum q) => some q
  | _ => none

/-- JavaScript `Math.round`: floor of x + 1/2 (ties away from minus
infinity). -/
def jsRound (q : ℚ) : Int :=
  Int.floor (q + 1 / 2)

/-- JavaScript `String.prototype.startsWith`: character-prefix test. -/
def jsStartsWith (s pre : String) : Bool :=
  List.isPrefixOf pre.data s.data

/-- JavaScript `String.prototype.trim`: strip leading and trailing
whitespace. -/
def jsTrim (s : String) : String :=
  String.mk (((s.data.dropWhile Char.isWhitespace).reverse.dropWhile
    Char.isWhitespace).reverse)

/-- `getConfidenceClass(percentage)` from app.js lines 892-904: the
if/else-if chain mapping an integer percentage to a CSS confidence
class. -/
def getConfidenceClass (percentage : Int) : String :=
  if percentage ≥ 80 then "confidence-very-high"
  else if percentage ≥ 60 then "confidence-high"
  else if percentage ≥ 40 then "confidence-medium"
  else if percentage ≥ 20 then "confidence-low"
  else "confidence-very-low"

/-- One rendered entry of the similar-content sidebar: the texts and the
confidence class that `updateSimilarContentDisplay` writes into the DOM
for one item. -/
structure RenderedSimilarItem where
  fileText : String
  scoreText : String
  confidenceClass : String
  snippetText : String
deriving Repr, DecidableEq

/-- The per-item body of `updateSimilarContentDisplay` (app.js lines
846-882): `percentage = Math.round(item.similarity * 100)`, the score text
`percentage + '%'`, the confidence class from `getConfidenceClass`, and the
file path and snippet copied into text nodes.  When `item.similarity` is
not a number the JavaScript arithmetic yields NaN: every `>=` comparison in
`getConfidenceClass` is then false (else branch) and the score renders as
"NaN%". -/
def renderSimilarItem (item : JVal) : RenderedSimilarItem :=
  match numOf (item.getField "similarity") with
  | some q =>
      { fileText := textOf (item.getField "file_path")
        scoreText := toString (jsRound (q * 100)) ++ "%"
        confidenceClass := getConfidenceClass (jsRound (q * 100))
        snippetText := textOf (item.getField "snippet") }
  | none =>
      { fileText := textOf (item.getField "file_path")
        scoreText := "NaN%"
        confidenceClass := "confidence-very-low"
        snippetText := textOf (item.getField "snippet") }

/-- What the similar-content container shows after
`updateSimilarContentDisplay`: the empty-state placeholder or the rendered
item list. -/
inductive SimilarDisplay where
  | emptyState
  | items : List RenderedSimilarItem → SimilarDisplay
deriving Repr, DecidableEq

/-- `updateSimilarContentDisplay(similarItems)` (app.js lines 836-883): an
empty list shows the placeholder, otherwise each item is rendered in list
order. -/
def updateSimilarContentDisplay (similarItems : List JVal) : SimilarDisplay :=
  if similarItems.length = 0 then SimilarDisplay.emptyState
  else SimilarDisplay.items (similarItems.map renderSimilarItem)

/-- The file paths shown in the sidebar, in display order. -/
def displayedFiles : SimilarDisplay → List String
  | SimilarDisplay.emptyState => []
  | SimilarDisplay.items rs => rs.map RenderedSimilarItem.fileText

/-- The request body `searchSimilarContent` posts to `/api/similar`
(app.js lines 813-821). -/
structure SimilarRequest where
  query : String
  current_file : String
  limit : Nat
deriving Repr, DecidableEq

/-- The observable outcome of one `searchSimilarContent` invocation up to
the network call: either no request is issued and the display is set
directly, or a request with the given body is issued. -/
inductive SearchStep where
  | noRequest : SimilarDisplay → SearchStep
  | request : SimilarRequest → SearchStep
deriving Repr, DecidableEq

/-- `searchSimilarContent` up to the fetch (app.js lines 800-821): bail out
with an empty display when no file is open or no editor exists, or when the
trimmed editor content is shorter than 50 characters; otherwise post
`{query, current_file, limit: 5}`. -/
def searchSimilarContent (currentFile : Option String) (hasEditor : Bool)
    (editorContent : String) : SearchStep :=
  match currentFile, hasEditor with
  | some path, true =>
      let content := jsTrim editorContent
      if content.length < 50 then
        SearchStep.noRequest (updateSimilarContentDisplay [])
      else
        SearchStep.request { query := content, current_file := path, limit := 5 }
  | _, _ => SearchStep.noRequest (updateSimilarContentDisplay [])

/-- Response handling of `searchSimilarContent` (app.js lines 823-833):
the display is updated from `result.similar` when that field is a (truthy)
array; any other shape falls into the error branch (or throws inside the
try) and the display is reset to empty. -/
def handleSimilarResponse (result : JVal) : SimilarDisplay :=
  match result.getField "similar" with
  | some (JVal.jarr items) => updateSimilarContentDisplay items
  | _ => updateSimilarContentDisplay []

/-- One server-sent event of the streaming generation feed, after the
client's `JSON.parse` of a `data:` line (app.js lines 1140-1151 dispatch on
`data.type`). -/
inductive StreamEvent where
  | context : Nat → StreamEvent
  | token : String → StreamEvent
  | done : StreamEvent
  | error : String → StreamEvent
deriving Repr, DecidableEq

/-- The terminal outcome of a generation run on the backend side. -/
inductive StreamOutcome where
  | completed : StreamOutcome
  | failed : String → StreamOutcome
deriving Repr, DecidableEq

/-- The terminal event the backend emits for an outcome. -/
def terminalEvent : StreamOutcome → StreamEvent
  | StreamOutcome.completed => StreamEvent.done
  | StreamOutcome.failed m => StreamEvent.error m

/-- Modelled from the spec: the server code that produces the SSE stream is
not among the sources, so the Generation Orchestrator of section 4.6 is
modelled here — the very first event reports the context-chunk count
(possibly 0), each token is forwarded in arrival order, and the stream is
terminated by exactly one `done` or `error` event. -/
def orchestratorStream (contextChunks : Nat) (tokens : List String)
    (outcome : StreamOutcome) : List StreamEvent :=
  StreamEvent.context contextChunks ::
    (tokens.map StreamEvent.token ++ [terminalEvent outcome])

/-- The UI state that the streaming branch of `generateAIResponse`
mutates: the response text, its CSS class, the meta line, the local
`contextCount` variable, and the `console.error` log. -/
structure StreamUIState where
  responseContent : String
  responseClass : String
  responseMeta : String
  contextCount : Nat
  consoleErrors : List String
deriving Repr, DecidableEq

/-- The UI state right before the read loop (app.js lines 1110-1127):
streaming class, cleared content and meta, `contextCount = 0`. -/
def initialStreamState : StreamUIState :=
  { responseContent := ""
    responseClass := "ai-response-content streaming"
    responseMeta := ""
    contextCount := 0
    consoleErrors := [] }

/-- One pass of the event dispatch (app.js lines 1140-1154).  A `context`
event stores its `items` count; a `token` event appends its content; a
`done` event clears the streaming class and writes the meta line from the
stored count.  An `error` event throws `new Error(data.message)` — but that
throw happens inside the `try` whose `catch` is meant for `JSON.parse`
failures, so it is caught right there and only logged via
`console.error('Error parsing SSE data:', e)`; the displayed state is left
untouched. -/
def processSSEEvent (st : StreamUIState) : StreamEvent → StreamUIState
  | StreamEvent.context items => { st with contextCount := items }
  | StreamEvent.token content =>
      { st with responseContent := st.responseContent ++ content }
  | StreamEvent.done =>
      { st with
        responseClass := "ai-response-content"
        responseMeta :=
          if st.contextCount > 0 then
            "Used context from " ++ toString st.contextCount ++ " notes"
          else "No context used" }
  | StreamEvent.error message =>
      { st with consoleErrors := st.consoleErrors ++ [message] }

/-- The whole read loop of the streaming branch: the parsed events are
consumed one at a time, in arrival order. -/
def runStream (events : List StreamEvent) : StreamUIState :=
  events.foldl processSSEEvent initialStreamState

/-- Modelled from the spec: the non-streaming generate endpoint (whose
server code is not among the sources) returns one record with the full
response text and the context-chunk count; the `error` field is the one the
client probes with `if (result.error)`. -/
structure GenerateResult where
  response : String
  context_used : Nat
  error : Option String
deriving Repr, DecidableEq

/-- Final (content, class, meta) of the non-streaming branch of
`generateAIResponse` (app.js lines 1174-1189): a truthy `result.error` is
thrown and rendered as `Error: <message>` with the error class; otherwise
the response text is shown and the meta line reports the context count. -/
def handleNonStreamingResult (result : GenerateResult) : String × String × String :=
  match result.error with
  | some msg =>
      if msg = "" then
        -- an empty message is falsy in JavaScript, so the error branch is skipped
        (result.response, "ai-response-content",
          if result.context_used > 0 then
            "Used context from " ++ toString result.context_used ++ " notes"
          else "No context used")
      else ("Error: " ++ msg, "ai-response-content error", "")
  | none =>
      (result.response, "ai-response-content",
        if result.context_used > 0 then
          "Used context from " ++ toString result.context_used ++ " notes"
        else "No context used")

/-- Modelled from the spec: the rebuild-index result record of sections 4.3
and 6 — a processed chunk count and a failed chunk count (the server code
producing it is not among the sources). -/
structure RebuildResult where
  processed : Nat
  failed : Nat
deriving Repr, DecidableEq

/-- How one `reindexVault` call can end at the client: a successful backend
record, an error response, or a thrown fetch error. -/
inductive ReindexOutcome where
  | success : RebuildResult → ReindexOutcome
  | failure : String → ReindexOutcome
  | thrown : String → ReindexOutcome
deriving Repr, DecidableEq

/-- The alert text `reindexVault` shows (app.js lines 923-934): the success
alert interpolates `result.processed`, both failure paths show the error
message. -/
def reindexAlert : ReindexOutcome → String
  | ReindexOutcome.success r =>
      "Successfully indexed " ++ toString r.processed ++ " files!"
  | ReindexOutcome.failure e => "Error indexing vault: " ++ e
  | ReindexOutcome.thrown m => "Error indexing vault: " ++ m

/-- A transform request as built by `handleContextAction` (app.js lines
1245-1270): the endpoint and the JSON body, as ordered string fields. -/
structure TransformRequest where
  endpoint : String
  payload : List (String × String)
deriving Repr, DecidableEq

/-- The `switch (action)` of `handleContextAction`: which endpoint and body
each context-menu action posts; an unknown action returns without a
request. -/
def buildTransformRequest (action selectedText context model : String) :
    Option TransformRequest :=
  if action = "expand" then
    some { endpoint := "/api/ai/expand"
           payload := [("text", selectedText), ("context", context), ("model", model)] }
  else if action = "summarize" then
    some { endpoint := "/api/ai/summarize"
           payload := [("text", selectedText), ("model", model)] }
  else if action = "rephrase-professional" then
    some { endpoint := "/api/ai/rephrase"
           payload := [("text", selectedText), ("tone", "professional"), ("model", model)] }
  else if action = "rephrase-casual" then
    some { endpoint := "/api/ai/rephrase"
           payload := [("text", selectedText), ("tone", "casual"), ("model", model)] }
  else if action = "rephrase-academic" then
    some { endpoint := "/api/ai/rephrase"
           payload := [("text", selectedText), ("tone", "academic"), ("model", model)] }
  else none

/-- The field `handleContextAction` reads the transformed text from
(app.js lines 1285-1292): `expanded_text` for expand, `summary` for
summarize, `rephrased_text` for every `rephrase-*` action; any other
action leaves `resultText` undefined. -/
def transformResultText (action : String) (result : JVal) : Option JVal :=
  if action = "expand" then result.getField "expanded_text"
  else if action = "summarize" then result.getField "summary"
  else if jsStartsWith action "rephrase" then result.getField "rephrased_text"
  else none

/-- What `handleContextAction` does with a parsed transform response
(app.js lines 1278-1302): a truthy `result.error` is thrown and alerted;
otherwise the selection is replaced with the extracted text exactly when
that text is truthy (a missing or empty field leaves the selection
unchanged). -/
inductive TransformOutcome where
  | replaced : String → TransformOutcome
  | noReplacement : TransformOutcome
  | errorAlert : String → TransformOutcome
deriving Repr, DecidableEq

/-- Response handling of `handleContextAction` over the parsed JSON
result. -/
def handleTransformResponse (action : String) (result : JVal) : TransformOutcome :=
  if truthy (result.getField "error") then
    TransformOutcome.errorAlert
      ("Error processing text: " ++ textOf (result.getField "error"))
  else
    match transformResultText action result with
    | some (JVal.jstr s) =>
        if s = "" then TransformOutcome.noReplacement
        else TransformOutcome.replaced s
    | _ => TransformOutcome.noReplacement

/-- The client state `changeModel` works on: the remembered current model
and the value shown by the model selector element. -/
structure ModelUIState where
  currentModel : String
  selectorValue : String
deriving Repr, DecidableEq

/-- How the `/api/models/current` call can end: a parsed JSON response, or
a thrown fetch error. -/
inductive FetchOutcome where
  | response : JVal → FetchOutcome
  | thrown : String → FetchOutcome

/-- `changeModel(modelName)` (app.js lines 986-1022).  The boolean reports
whether a request was issued: a falsy or already-current name returns
immediately.  On a truthy `result.success` the remembered model becomes
`modelName` (the selector keeps the value the user picked); on an error
response or a thrown fetch the selector is reset to the untouched
`this.currentModel`. -/
def changeModel (st : ModelUIState) (modelName : String) (fetch : FetchOutcome) :
    Bool × ModelUIState :=
  if modelName = "" ∨ modelName = st.currentModel then (false, st)
  else
    match fetch with
    | FetchOutcome.response result =>
        if truthy (result.getField "success") then
          (true, { currentModel := modelName, selectorValue := st.selectorValue })
        else
          (true, { currentModel := st.currentModel, selectorValue := st.currentModel })
    | FetchOutcome.thrown _ =>
        (true, { currentModel := st.currentModel, selectorValue := st.currentModel })

/-- A fetch outcome that does not report success: an error response (no
truthy `success` field) or a thrown fetch error. -/
def fetchFailed : FetchOutcome → Prop
  | FetchOutcome.response result => truthy (result.getField "success") = false
  | FetchOutcome.thrown _ => True

/-- Event-kind discriminator: is this the context event? -/
def isContextEvent : StreamEvent → Bool
  | StreamEvent.context _ => true
  | _ => false

/-- Event-kind discriminator: is this a terminating (`done` or `error`)
event? -/
def isTerminalEvent : StreamEvent → Bool
  | StreamEvent.done => true
  | StreamEvent.error _ => true
  | _ => false

theorem getConfidenceClass_characterization (p : Int) :
    (getConfidenceClass p = "confidence-very-low" ↔ p < 20) ∧
    (getConfidenceClass p = "confidence-low" ↔ 20 ≤ p ∧ p ≤ 39) ∧
    (getConfidenceClass p = "confidence-medium" ↔ 40 ≤ p ∧ p ≤ 59) ∧
    (getConfidenceClass p = "confidence-high" ↔ 60 ≤ p ∧ p ≤ 79) ∧
    (getConfidenceClass p = "confidence-very-high" ↔ 80 ≤ p) := by
  unfold getConfidenceClass
  split_ifs with h1 h2 h3 h4 <;>
    refine ⟨?_, ?_, ?_, ?_, ?_⟩ <;> simp <;> omega

theorem renderSimilarItem_fileText (i : JVal) :
    (renderSimilarItem i).fileText = textOf (i.getField "file_path") := by
  unfold renderSimilarItem
  cases numOf (i.getField "similarity") <;> rfl

theorem displayedFiles_order (items : List JVal) :
    displayedFiles (updateSimilarContentDisplay items) =
      items.map (fun i => textOf (JVal.getField i "file_path")) := by
  unfold updateSimilarContentDisplay
  by_cases h : items.length = 0
  · rw [if_pos h]
    rw [List.length_eq_zero] at h
    subst h
    rfl
  · rw [if_neg h]
    show List.map RenderedSimilarItem.fileText (List.map renderSimilarItem items) =
      List.map (fun i => textOf (JVal.getField i "file_path")) items
    rw [List.map_map]
    congr 1
    funext i
    exact renderSimilarItem_fileText i

/-- Claim C2: for every similarity score in [-1, 1], the confidence class
computed from the rounded percentage is very-low below 20, low in 20-39,
medium in 40-59, high in 60-79 and very-high from 80 on; the class is a
presentation label only — the sidebar shows the results in the order they
arrive, whatever the classes are. -/
theorem C2_confidence_bucket (q : ℚ) (hlo : -1 ≤ q) (hhi : q ≤ 1) :
    ((getConfidenceClass (jsRound (q * 100)) = "confidence-very-low" ↔
        jsRound (q * 100) < 20) ∧
      (getConfidenceClass (jsRound (q * 100)) = "confidence-low" ↔
        20 ≤ jsRound (q * 100) ∧ jsRound (q * 100) ≤ 39) ∧
      (getConfidenceClass (jsRound (q * 100)) = "confidence-medium" ↔
        40 ≤ jsRound (q * 100) ∧ jsRound (q * 100) ≤ 59) ∧
      (getConfidenceClass (jsRound (q * 100)) = "confidence-high" ↔
        60 ≤ jsRound (q * 100) ∧ jsRound (q * 100) ≤ 79) ∧
      (getConfidenceClass (jsRound (q * 100)) = "confidence-very-high" ↔
        80 ≤ jsRound (q * 100))) ∧
    (∀ items : List JVal,
      displayedFiles (updateSimilarContentDisplay items) =
        items.map (fun i => textOf (JVal.getField i "file_path"))) :=
  ⟨getConfidenceClass_characterization (jsRound (q * 100)), displayedFiles_order⟩

theorem C2_confidence_bucket_witness :
    ((-1 : ℚ) ≤ 1 / 2 ∧ (1 / 2 : ℚ) ≤ 1) ∧
    (((getConfidenceClass (jsRound ((1 / 2 : ℚ) * 100)) = "confidence-very-low" ↔
        jsRound ((1 / 2 : ℚ) * 100) < 20) ∧
      (getConfidenceClass (jsRound ((1 / 2 : ℚ) * 100)) = "confidence-low" ↔
        20 ≤ jsRound ((1 / 2 : ℚ) * 100) ∧ jsRound ((1 / 2 : ℚ) * 100) ≤ 39) ∧
      (getConfidenceClass (jsRound ((1 / 2 : ℚ) * 100)) = "confidence-medium" ↔
        40 ≤ jsRound ((1 / 2 : ℚ) * 100) ∧ jsRound ((1 / 2 : ℚ) * 100) ≤ 59) ∧
      (getConfidenceClass (jsRound ((1 / 2 : ℚ) * 100)) = "confidence-high" ↔
        60 ≤ jsRound ((1 / 2 : ℚ) * 100) ∧ jsRound ((1 / 2 : ℚ) * 100) ≤ 79) ∧
      (getConfidenceClass (jsRound ((1 / 2 : ℚ) * 100)) = "confidence-very-high" ↔
        80 ≤ jsRound ((1 / 2 : ℚ) * 100))) ∧
    (∀ items : List JVal,
      displayedFiles (updateSimilarContentDisplay items) =
        items.map (fun i => textOf (JVal.getField i "file_path")))) :=
  ⟨⟨by norm_num, by norm_num⟩,
    C2_confidence_bucket (1 / 2) (by norm_num) (by norm_num)⟩

/-- Claim C9: the confidence classifier is total on the integers — every
integer percentage, negative ones included, falls in exactly one of the
five ranges and gets the matching class; in particular everything below 20
(hence every negative percentage) is classified very-low. -/
theorem C9_confidence_total (p : Int) :
    (getConfidenceClass p = "confidence-very-low" ∨
      getConfidenceClass p = "confidence-low" ∨
      getConfidenceClass p = "confidence-medium" ∨
      getConfidenceClass p = "confidence-high" ∨
      getConfidenceClass p = "confidence-very-high") ∧
    (p < 20 ∨ (20 ≤ p ∧ p ≤ 39) ∨ (40 ≤ p ∧ p ≤ 59) ∨
      (60 ≤ p ∧ p ≤ 79) ∨ 80 ≤ p) ∧
    (getConfidenceClass p = "confidence-very-low" ↔ p < 20) ∧
    (getConfidenceClass p = "confidence-low" ↔ 20 ≤ p ∧ p ≤ 39) ∧
    (getConfidenceClass p = "confidence-medium" ↔ 40 ≤ p ∧ p ≤ 59) ∧
    (getConfidenceClass p = "confidence-high" ↔ 60 ≤ p ∧ p ≤ 79) ∧
    (getConfidenceClass p = "confidence-very-high" ↔ 80 ≤ p) := by
  obtain ⟨h1, h2, h3, h4, h5⟩ := getConfidenceClass_characterization p
  refine ⟨?_, by omega, h1, h2, h3, h4, h5⟩
  by_cases c1 : p < 20
  · exact Or.inl (h1.mpr c1)
  by_cases c2 : p ≤ 39
  · exact Or.inr (Or.inl (h2.mpr ⟨by omega, c2⟩))
  by_cases c3 : p ≤ 59
  · exact Or.inr (Or.inr (Or.inl (h3.mpr ⟨by omega, c3⟩)))
  by_cases c4 : p ≤ 79
  · exact Or.inr (Or.inr (Or.inr (Or.inl (h4.mpr ⟨by omega, c4⟩))))
  exact Or.inr (Or.inr (Or.inr (Or.inr (h5.mpr (by omega)))))

/-- Claim C3: whenever the trimmed editor content is shorter than the
50-character minimum, `searchSimilarContent` resets the sidebar to the
empty state and issues no backend request at all. -/
theorem C3_short_query_no_request (currentFile : Option String)
    (hasEditor : Bool) (editorContent : String)
    (h : (jsTrim editorContent).length < 50) :
    searchSimilarContent currentFile hasEditor editorContent =
      SearchStep.noRequest SimilarDisplay.emptyState := by
  cases currentFile with
  | none => cases hasEditor <;> rfl
  | some path =>
      cases hasEditor with
      | false => rfl
      | true =>
          show (if (jsTrim editorContent).length < 50 then
              SearchStep.noRequest (updateSimilarContentDisplay [])
            else SearchStep.request
              { query := jsTrim editorContent, current_file := path, limit := 5 }) =
            SearchStep.noRequest SimilarDisplay.emptyState
          rw [if_pos h]
          rfl

theorem C3_short_query_no_request_witness :
    (jsTrim " short note ").length < 50 ∧
    searchSimilarContent (some "notes/a.md") true " short note " =
      SearchStep.noRequest SimilarDisplay.emptyState :=
  ⟨by decide, C3_short_query_no_request (some "notes/a.md") true " short note " (by decide)⟩

/-- Claim C6 counterexample: a response of the shape the claim states,
`{results: [{file_path, similarity, snippet, confidence_bucket}]}`, is not
what the client consumes — `handleSimilarResponse` finds no `similar`
field and resets the display to empty, and even when such an item is
rendered directly its `confidence_bucket` field is ignored: the class is
recomputed from `similarity` (here very-high, although the field says
very-low). -/
theorem C6_shape_counterexample :
    handleSimilarResponse
        (JVal.jobj [("results", JVal.jarr [JVal.jobj
          [("file_path", JVal.jstr "a.md"), ("similarity", JVal.jnum 1),
            ("snippet", JVal.jstr "s"),
            ("confidence_bucket", JVal.jstr "confidence-very-low")]])]) =
      SimilarDisplay.emptyState ∧
    (renderSimilarItem (JVal.jobj
        [("file_path", JVal.jstr "a.md"), ("similarity", JVal.jnum 1),
          ("snippet", JVal.jstr "s"),
          ("confidence_bucket", JVal.jstr "confidence-very-low")])).confidenceClass =
      "confidence-very-high" := by
  refine ⟨rfl, ?_⟩
  show getConfidenceClass (jsRound (1 * 100)) = "confidence-very-high"
  have h100 : jsRound ((1 : ℚ) * 100) = 100 := by
    norm_num [jsRound]
  rw [h100]
  decide

/-- Claim C6 (amended): the similarity response the client consumes is a
record whose `similar` field is the result list; each entry is read only
through its `file_path`, `similarity` and `snippet` fields (the confidence
class is computed client-side from `similarity`, not read from the
response). -/
theorem C6_response_shape (result : JVal) (items : List JVal)
    (h : result.getField "similar" = some (JVal.jarr items)) :
    handleSimilarResponse result = updateSimilarContentDisplay items ∧
    (∀ i j : JVal,
      i.getField "file_path" = j.getField "file_path" →
      i.getField "similarity" = j.getField "similarity" →
      i.getField "snippet" = j.getField "snippet" →
      renderSimilarItem i = renderSimilarItem j) ∧
    (∀ (path snip : String) (q : ℚ),
      renderSimilarItem (JVal.jobj [("file_path", JVal.jstr path),
          ("similarity", JVal.jnum q), ("snippet", JVal.jstr snip)]) =
        { fileText := path
          scoreText := toString (jsRound (q * 100)) ++ "%"
          confidenceClass := getConfidenceClass (jsRound (q * 100))
          snippetText := snip }) := by
  refine ⟨?_, ?_, ?_⟩
  · unfold handleSimilarResponse
    rw [h]
  · intro i j e1 e2 e3
    unfold renderSimilarItem
    rw [e1, e2, e3]
  · intro path snip q
    rfl

theorem countP_tokens_context (tokens : List String) :
    (tokens.map StreamEvent.token).countP isContextEvent = 0 := by
  rw [List.countP_eq_zero]
  intro e he
  obtain ⟨t, _, rfl⟩ := List.mem_map.mp he
  simp [isContextEvent]

theorem countP_tokens_terminal (tokens : List String) :
    (tokens.map StreamEvent.token).countP isTerminalEvent = 0 := by
  rw [List.countP_eq_zero]
  intro e he
  obtain ⟨t, _, rfl⟩ := List.mem_map.mp he
  simp [isTerminalEvent]

theorem join_cons (t : String) (ts : List String) :
    String.join (t :: ts) = t ++ String.join ts := by
  simp [String.join_eq, String.ext_iff]

theorem foldl_token_state (tokens : List String) (st : StreamUIState) :
    List.foldl processSSEEvent st (tokens.map StreamEvent.token) =
      { st with responseContent := st.responseContent ++ String.join tokens } := by
  induction tokens generalizing st with
  | nil =>
      show st = { st with responseContent := st.responseContent ++ String.join [] }
      have hj : String.join ([] : List String) = "" := rfl
      rw [hj, String.append_empty]
  | cons t ts ih =>
      show List.foldl processSSEEvent (processSSEEvent st (StreamEvent.token t))
          (ts.map StreamEvent.token) =
        { st with responseContent := st.responseContent ++ String.join (t :: ts) }
      rw [ih]
      show ({ st with
          responseContent := st.responseContent ++ t ++ String.join ts } : StreamUIState) =
        { st with responseContent := st.responseContent ++ String.join (t :: ts) }
      rw [join_cons, ← String.append_assoc]

/-- Claim C1: the stream handed to the caller is exactly one context event
(carrying the chunk count, possibly 0) first, then the token events, then
exactly one `done` or `error` event; the client folds over the events in
arrival order, so the displayed text is the in-order concatenation of the
token contents and the stored count is the one from the leading context
event. -/
theorem C1_stream_protocol (c : Nat) (tokens : List String)
    (outcome : StreamOutcome) :
    (orchestratorStream c tokens outcome).head? = some (StreamEvent.context c) ∧
    ((orchestratorStream c tokens outcome).drop 1).dropLast =
      tokens.map StreamEvent.token ∧
    (orchestratorStream c tokens outcome).getLast? = some (terminalEvent outcome) ∧
    (orchestratorStream c tokens outcome).countP isContextEvent = 1 ∧
    (orchestratorStream c tokens outcome).countP isTerminalEvent = 1 ∧
    (runStream (orchestratorStream c tokens outcome)).responseContent =
      String.join tokens ∧
    (runStream (orchestratorStream c tokens outcome)).contextCount = c := by
  refine ⟨rfl, ?_, ?_, ?_, ?_, ?_, ?_⟩
  · show (tokens.map StreamEvent.token ++ [terminalEvent outcome]).dropLast =
      tokens.map StreamEvent.token
    exact List.dropLast_concat ..
  · show (StreamEvent.context c ::
        (tokens.map StreamEvent.token ++ [terminalEvent outcome])).getLast? =
      some (terminalEvent outcome)
    rw [← List.cons_append]
    exact List.getLast?_concat _
  · cases outcome <;>
      simp [orchestratorStream, List.countP_cons, List.countP_append,
        countP_tokens_context, isContextEvent, terminalEvent]
  · cases outcome <;>
      simp [orchestratorStream, List.countP_cons, List.countP_append,
        countP_tokens_terminal, isTerminalEvent, terminalEvent]
  · show (List.foldl processSSEEvent initialStreamState
        (StreamEvent.context c ::
          (tokens.map StreamEvent.token ++ [terminalEvent outcome]))).responseContent =
      String.join tokens
    rw [List.foldl_cons, List.foldl_append, foldl_token_state]
    cases outcome <;>
      simp [processSSEEvent, terminalEvent, initialStreamState]
  · show (List.foldl processSSEEvent initialStreamState
        (StreamEvent.context c ::
          (tokens.map StreamEvent.token ++ [terminalEvent outcome]))).contextCount = c
    rw [List.foldl_cons, List.foldl_append, foldl_token_state]
    cases outcome <;>
      simp [processSSEEvent, terminalEvent, initialStreamState]

/-- Claim C4 (code bug): when the backend emits an error event after a
token, the thrown `Error(data.message)` is intercepted by the inner
JSON-parse catch, so the message only reaches the console log — the
response area keeps the tokens and the streaming class and the message is
never displayed. -/
theorem C4_error_event_not_displayed :
    (runStream [StreamEvent.context 0, StreamEvent.token "Hello",
        StreamEvent.error "backend unavailable"]).responseContent = "Hello" ∧
    (runStream [StreamEvent.context 0, StreamEvent.token "Hello",
        StreamEvent.error "backend unavailable"]).responseMeta = "" ∧
    (runStream [StreamEvent.context 0, StreamEvent.token "Hello",
        StreamEvent.error "backend unavailable"]).responseClass =
      "ai-response-content streaming" ∧
    (runStream [StreamEvent.context 0, StreamEvent.token "Hello",
        StreamEvent.error "backend unavailable"]).consoleErrors =
      ["backend unavailable"] :=
  ⟨rfl, rfl, rfl, rfl⟩

theorem used_context_meta_ne (n : Nat) :
    "Used context from " ++ toString n ++ " notes" ≠ "No context used" := by
  intro heq
  have hlen := congrArg String.length heq
  rw [String.length_append, String.length_append] at hlen
  have e1 : ("Used context from " : String).length = 18 := rfl
  have e2 : (" notes" : String).length = 6 := rfl
  have e3 : ("No context used" : String).length = 15 := rfl
  omega

/-- Claim C5: on a successful non-streaming generation the client shows
the full response text, and the meta line reads `Used context from N
notes` exactly when the context count is positive and `No context used`
otherwise. -/
theorem C5_nonstreaming_report (result : GenerateResult)
    (h : result.error = none) :
    handleNonStreamingResult result =
      (result.response, "ai-response-content",
        if result.context_used > 0 then
          "Used context from " ++ toString result.context_used ++ " notes"
        else "No context used") ∧
    ((handleNonStreamingResult result).2.2 = "No context used" ↔
      result.context_used = 0) := by
  constructor
  · unfold handleNonStreamingResult
    rw [h]
  · unfold handleNonStreamingResult
    rw [h]
    show ((if result.context_used > 0 then
        "Used context from " ++ toString result.context_used ++ " notes"
      else "No context used") = "No context used") ↔ result.context_used = 0
    by_cases h0 : result.context_used > 0
    · rw [if_pos h0]
      constructor
      · intro he
        exact absurd he (used_context_meta_ne _)
      · intro h1
        omega
    · rw [if_neg h0]
      constructor
      · intro _
        omega
      · intro _
        rfl

theorem C5_nonstreaming_report_witness :
    ({ response := "hello", context_used := 2, error := none } : GenerateResult).error =
      none ∧
    (handleNonStreamingResult
        { response := "hello", context_used := 2, error := none } =
      ("hello", "ai-response-content",
        if (2 : Nat) > 0 then "Used context from " ++ toString (2 : Nat) ++ " notes"
        else "No context used") ∧
    ((handleNonStreamingResult
        { response := "hello", context_used := 2, error := none }).2.2 =
        "No context used" ↔ (2 : Nat) = 0)) :=
  ⟨rfl, C5_nonstreaming_report { response := "hello", context_used := 2, error := none } rfl⟩

/-- Claim C7: the completed rebuild is reported as a record with a
processed count and a failed count; the success alert the client shows is
built from the processed count (and from nothing else), and the failure
paths show the error message. -/
theorem C7_reindex_counts (r : RebuildResult) (f2 : Nat) (e : String) :
    reindexAlert (ReindexOutcome.success r) =
      "Successfully indexed " ++ toString r.processed ++ " files!" ∧
    reindexAlert (ReindexOutcome.success r) =
      reindexAlert (ReindexOutcome.success { processed := r.processed, failed := f2 }) ∧
    r = { processed := r.processed, failed := r.failed } ∧
    reindexAlert (ReindexOutcome.failure e) = "Error indexing vault: " ++ e :=
  ⟨rfl, rfl, rfl, rfl⟩

/-- Claim C8 counterexample: a transform response carrying the transformed
text under the claimed `result_text` field is not consumed — the client
leaves the selection unchanged, because it reads `expanded_text` (or
`summary`, `rephrased_text`) instead. -/
theorem C8_result_text_counterexample :
    handleTransformResponse "expand"
        (JVal.jobj [("result_text", JVal.jstr "X")]) =
      TransformOutcome.noReplacement :=
  rfl

/-- Claim C8 (amended): each transform action posts `{text, context?,
tone?, model}` exactly as listed, and the replacement text is taken from
the action-specific response field: `expanded_text` for expand, `summary`
for summarize, `rephrased_text` for the rephrase actions. -/
theorem C8_transform_contract (text ctx model s : String) (hs : s ≠ "") :
    buildTransformRequest "expand" text ctx model =
      some { endpoint := "/api/ai/expand"
             payload := [("text", text), ("context", ctx), ("model", model)] } ∧
    buildTransformRequest "summarize" text ctx model =
      some { endpoint := "/api/ai/summarize"
             payload := [("text", text), ("model", model)] } ∧
    buildTransformRequest "rephrase-professional" text ctx model =
      some { endpoint := "/api/ai/rephrase"
             payload := [("text", text), ("tone", "professional"), ("model", model)] } ∧
    buildTransformRequest "rephrase-casual" text ctx model =
      some { endpoint := "/api/ai/rephrase"
             payload := [("text", text), ("tone", "casual"), ("model", model)] } ∧
    buildTransformRequest "rephrase-academic" text ctx model =
      some { endpoint := "/api/ai/rephrase"
             payload := [("text", text), ("tone", "academic"), ("model", model)] } ∧
    handleTransformResponse "expand" (JVal.jobj [("expanded_text", JVal.jstr s)]) =
      TransformOutcome.replaced s ∧
    handleTransformResponse "summarize" (JVal.jobj [("summary", JVal.jstr s)]) =
      TransformOutcome.replaced s ∧
    handleTransformResponse "rephrase-professional"
        (JVal.jobj [("rephrased_text", JVal.jstr s)]) =
      TransformOutcome.replaced s := by
  refine ⟨rfl, rfl, rfl, rfl, rfl, ?_, ?_, ?_⟩ <;>
    simp [handleTransformResponse, transformResultText, JVal.getField,
      List.lookup, truthy, jsStartsWith, hs]

theorem C8_transform_contract_witness :
    ("better text" : String) ≠ "" ∧
    (buildTransformRequest "expand" "sel" "doc" "m" =
      some { endpoint := "/api/ai/expand"
             payload := [("text", "sel"), ("context", "doc"), ("model", "m")] } ∧
    buildTransformRequest "summarize" "sel" "doc" "m" =
      some { endpoint := "/api/ai/summarize"
             payload := [("text", "sel"), ("model", "m")] } ∧
    buildTransformRequest "rephrase-professional" "sel" "doc" "m" =
      some { endpoint := "/api/ai/rephrase"
             payload := [("text", "sel"), ("tone", "professional"), ("model", "m")] } ∧
    buildTransformRequest "rephrase-casual" "sel" "doc" "m" =
      some { endpoint := "/api/ai/rephrase"
             payload := [("text", "sel"), ("tone", "casual"), ("model", "m")] } ∧
    buildTransformRequest "rephrase-academic" "sel" "doc" "m" =
      some { endpoint := "/api/ai/rephrase"
             payload := [("text", "sel"), ("tone", "academic"), ("model", "m")] } ∧
    handleTransformResponse "expand"
        (JVal.jobj [("expanded_text", JVal.jstr "better text")]) =
      TransformOutcome.replaced "better text" ∧
    handleTransformResponse "summarize"
        (JVal.jobj [("summary", JVal.jstr "better text")]) =
      TransformOutcome.replaced "better text" ∧
    handleTransformResponse "rephrase-professional"
        (JVal.jobj [("rephrased_text", JVal.jstr "better text")]) =
      TransformOutcome.replaced "better text") :=
  ⟨by decide, C8_transform_contract "sel" "doc" "m" "better text" (by decide)⟩

/-- Claim C10: when the set-embedding-model call fails (error response or
thrown fetch), the remembered current model is unchanged and the selector
is reset to it; and selecting the already-current model issues no request
and changes nothing. -/
theorem C10_model_selection (st : ModelUIState) (modelName : String)
    (fetch : FetchOutcome) (h : fetchFailed fetch) :
    ((changeModel st modelName fetch).2.currentModel = st.currentModel) ∧
    ((changeModel st modelName fetch).1 = true →
      (changeModel st modelName fetch).2.selectorValue = st.currentModel) ∧
    changeModel st st.currentModel fetch = (false, st) := by
  refine ⟨?_, ?_, ?_⟩
  · by_cases hn : modelName = "" ∨ modelName = st.currentModel
    · simp [changeModel, hn]
    · cases fetch with
      | response result =>
          have h' : truthy (result.getField "success") = false := h
          simp [changeModel, hn, h']
      | thrown m => simp [changeModel, hn]
  · by_cases hn : modelName = "" ∨ modelName = st.currentModel
    · simp [changeModel, hn]
    · cases fetch with
      | response result =>
          have h' : truthy (result.getField "success") = false := h
          simp [changeModel, hn, h']
      | thrown m => simp [changeModel, hn]
  · simp [changeModel]

theorem C10_model_selection_witness :
    fetchFailed (FetchOutcome.thrown "network down") ∧
    (((changeModel { currentModel := "modelA", selectorValue := "modelB" }
        "modelB" (FetchOutcome.thrown "network down")).2.currentModel = "modelA") ∧
    ((changeModel { currentModel := "modelA", selectorValue := "modelB" }
        "modelB" (FetchOutcome.thrown "network down")).1 = true →
      (changeModel { currentModel := "modelA", selectorValue := "modelB" }
        "modelB" (FetchOutcome.thrown "network down")).2.selectorValue = "modelA") ∧
    changeModel { currentModel := "modelA", selectorValue := "modelB" }
        "modelA" (FetchOutcome.thrown "network down") =
      (false, { currentModel := "modelA", selectorValue := "modelB" })) :=
  ⟨trivial, C10_model_selection
    { currentModel := "modelA", selectorValue := "modelB" } "modelB"
    (FetchOutcome.thrown "network down") trivial⟩

theorem C6_response_shape_witness :
    (JVal.jobj [("similar", JVal.jarr [])]).getField "similar" =
      some (JVal.jarr []) ∧
    (handleSimilarResponse (JVal.jobj [("similar", JVal.jarr [])]) =
        updateSimilarContentDisplay [] ∧
      (∀ i j : JVal,
        i.getField "file_path" = j.getField "file_path" →
        i.getField "similarity" = j.getField "similarity" →
        i.getField "snippet" = j.getField "snippet" →
        renderSimilarItem i = renderSimilarItem j) ∧
      (∀ (path snip : String) (q : ℚ),
        renderSimilarItem (JVal.jobj [("file_path", JVal.jstr path),
            ("similarity", JVal.jnum q), ("snippet", JVal.jstr snip)]) =
          { fileText := path
            scoreText := toString (jsRound (q * 100)) ++ "%"
            confidenceClass := getConfidenceClass (jsRound (q * 100))
            snippetText := snip })) :=
  ⟨rfl, C6_response_shape (JVal.jobj [("similar", JVal.jarr [])]) [] rfl⟩

end PyNote
